import Mathlib

/-!
Verification of the two Blender procedural-modeling scripts of this repository,
src/tri_lobe_tentacle_generator.py and src/render_tentacle_cli.py, against their
natural-language specification.

The embedding has three layers:

1. A trace model of each script's main() pipeline: the sequence of scene-graph
   operations (object creation, boolean modifiers, hide, render, .blend save,
   STL export) that main() performs on a successful run, as a concrete
   List Op.  Operations that bear on no claim (material assignment,
   render-engine configuration, manifold cleanup, transform application,
   camera/light placement) are omitted; the geometric operations are kept in
   source order with the parameters the claims mention.  Lengths in this layer
   are exact integer micrometers (the scripts work in meters with millimeter
   parameters scaled by MM = 0.001, and every length the claims mention is a
   whole number of micrometers), so that the traces are decidable by
   evaluation.

2. An exception-flow model of the two export_stl functions: each try/except
   ladder is embedded as a total function from "which step raises which
   exception" to a PyResult that is either a normal return or a propagated
   exception.  The exception kinds modeled are the two the claims are about:
   AttributeError (host export API missing) and OSError (a write failure);
   both are subclasses of Python's Exception.

3. A closed-form arithmetic model of the geometry helpers of
   render_tentacle_cli.py (tri-lobe vertex deformation, bladder centers and
   radii, channel endpoints, channel alignment), over ℝ for the trigonometric
   parts and over ℚ for the exactly-computable parts, and of the hand-written
   STL writer of tri_lobe_tentacle_generator.py.
-/

/-- Scene objects of the two scripts that the claims mention.  Bladders are
indexed by lobe and stack position, channels and connectors by lobe. -/
inductive Obj
  | buildRef
  | body
  | bladder (lobe idx : ℕ)
  | channel (lobe : ℕ)
  | connector (idx : ℕ)
  | cores
  | hydraulics (lobe : ℕ)
deriving DecidableEq

/-- Scene-graph operations performed by the two main() pipelines.  Only the
connector cylinders carry their creation parameters, because claim C2 is about
those numbers: radius_um and depth_um are the radius and depth passed to
bpy.ops.mesh.primitive_cylinder_add, in micrometers (the source passes
connector_radius_mm * MM meters, that is radius_um / 10^6). -/
inductive Op
  | clearScene
  | create (o : Obj)
  | createCylinder (o : Obj) (radius_um depth_um : ℕ)
  | hide (o : Obj)
  | boolUnion (target tool : Obj)
  | boolDifference (target tool : Obj)
  | joinInto (target : Obj)
  | renderImage
  | saveBlend
  | exportStl (o : Obj)
deriving DecidableEq

/-- Python exception kinds relevant to the export_stl claims: AttributeError
is what a missing bpy operator raises, OSError stands for a failed file write.
Both are subclasses of Python's Exception. -/
inductive PyExc
  | attributeError
  | oSError
deriving DecidableEq, Fintype

/-- Result of running a Python function: either a normal return carrying an
outcome, or an exception propagated to the caller. -/
inductive PyResult (α : Type)
  | ok (a : α)
  | raised (e : PyExc)
deriving DecidableEq

/-- Terminal outcomes of the export_stl functions when they return normally. -/
inductive StlOutcome
  | exported
  | exportedAlt
  | savedBlend
  | printedFailure
deriving DecidableEq

/-- True when the Python call returned normally (no exception escaped). -/
def returnsNormally {α : Type} : PyResult α → Bool
  | .ok _ => true
  | .raised _ => false

namespace TriLobeGen

/-! Embedding of src/tri_lobe_tentacle_generator.py. -/

/-- Parameter block, lines 42-71 of the source, as exact rationals in the
source's millimeter units (MM = 0.001 converts to meters). -/
def tentacle_len_mm : ℚ := 150
def base_radius_mm : ℚ := 25
def bladder_spacing_mm : ℚ := 18.75
def connector_radius_mm : ℚ := 6.35
def connector_length_mm : ℚ := 20
def MM : ℚ := 0.001
def export_main : Bool := true
def export_cores : Bool := true
def skip_boolean_ops : Bool := true

/-- The same lengths in integer micrometers, for the decidable trace layer. -/
def tentacle_len_um : ℕ := 150000
def bladder_spacing_um : ℕ := 18750
def connector_radius_um : ℕ := 6350
def connector_length_um : ℕ := 20000

/-- create_enhanced_bladder_stack fixes num_bladders = 8 (line 385). -/
def num_bladders : ℕ := 8

/-- Heights (micrometers) of the bladders of one lobe: z_pos = (i+1) *
bladder_spacing_mm * MM meters for i in range(8) (line 388). -/
def bladderHeights_um : List ℕ :=
  (List.range num_bladders).map (fun i => (i + 1) * bladder_spacing_um)

/-- The 24 bladder objects created by the three create_enhanced_bladder_stack
calls (lines 952-954), in creation order. -/
def bladderObjs : List Obj :=
  (List.range 3).flatMap (fun lobe => (List.range num_bladders).map (Obj.bladder lobe))

/-- The 3 channel objects of create_enhanced_channels (lines 428-465). -/
def channelObjs : List Obj := (List.range 3).map Obj.channel

/-- The 3 connector objects of create_connector_holes (lines 467-490). -/
def connectorObjs : List Obj := (List.range 3).map Obj.connector

/-- The cylinder_add calls of create_connector_holes (lines 478-482): one per
lobe, radius connector_radius_mm * MM, depth connector_length_mm * MM. -/
def connectorCylinderOps : List Op :=
  (List.range 3).map (fun i =>
    Op.createCylinder (Obj.connector i) connector_radius_um connector_length_um)

/-- void_objects = all_bladders + channels + connectors (line 969). -/
def void_objects : List Obj := bladderObjs ++ channelObjs ++ connectorObjs

/-- Trace of main() (test_mode = 4, lines 845-1035) on a successful run, as a
function of the three configuration flags it branches on: when skip_boolean_ops
is true the void objects are hidden (lines 988-992), otherwise subtract_voids
applies one DIFFERENCE boolean modifier to the body per void (lines 492-529);
then the scene is rendered and the body and cores are exported per the export
flags.  No .blend save occurs on this successful path. -/
def genMainTrace (skipBool exMain exCores : Bool) : List Op :=
  [Op.clearScene, Op.create Obj.buildRef, Op.create Obj.body]
  ++ bladderObjs.map Op.create
  ++ channelObjs.map Op.create
  ++ connectorCylinderOps
  ++ (if exCores then [Op.create Obj.cores] else [])
  ++ (if skipBool then void_objects.map Op.hide
      else void_objects.map (Op.boolDifference Obj.body))
  ++ [Op.renderImage]
  ++ (if exMain then [Op.exportStl Obj.body] else [])
  ++ (if exCores then [Op.exportStl Obj.cores] else [])

/-- The trace of main() under the configuration committed in the source:
skip_boolean_ops = True, export_main = True, export_cores = True. -/
def genTrace : List Op := genMainTrace skip_boolean_ops export_main export_cores

/-- Exception flow of export_stl (lines 577-626): the manual STL write sits in
a try whose handler catches Exception, and the fallback .blend save sits in a
nested try that also catches Exception; both modeled exception kinds are
Exceptions, so both handlers catch them.  Arguments say which step raises
which exception (none = the step succeeds). -/
def export_stl (manualWrite blendSave : Option PyExc) : PyResult StlOutcome :=
  match manualWrite with
  | none => .ok .exported
  | some _ =>
    match blendSave with
    | none => .ok .savedBlend
    | some _ => .ok .printedFailure

end TriLobeGen

namespace RenderCli

/-! Embedding of src/render_tentacle_cli.py. -/

/-- Parameter block, lines 27-40 of the source, as exact rationals in the
source's millimeter units (MM = 0.001 converts to meters). -/
def tentacle_len_mm : ℚ := 150
def base_radius_mm : ℚ := 25
def bladder_long_mm : ℚ := 10
def bladder_short_mm : ℚ := 6
def bladder_spacing_mm : ℚ := 15
def channel_radius_mm : ℚ := 2
def connector_radius_mm : ℚ := 6.35
def connector_length_mm : ℚ := 20
def MM : ℚ := 0.001

/-- The same lengths in integer micrometers, for the decidable trace layer. -/
def tentacle_len_um : ℕ := 150000
def bladder_spacing_um : ℕ := 15000

/-- num_bladders = int(tentacle_len_mm / bladder_spacing_mm) - 1 (line 211).
The float quotient 150.0 / 15.0 is exact and positive, so Python's truncating
int() agrees with natural-number division of the micrometer lengths. -/
def num_bladders : ℕ := tentacle_len_um / bladder_spacing_um - 1

/-- Heights (micrometers) of the bladders created for one lobe by
create_bladders (lines 238-241): the loop tries i in range(num_bladders) with
z_pos = (i+1) * bladder_spacing_mm * MM and breaks at the first i with
z_pos >= tentacle_len_mm * MM - bladder_spacing_mm * MM. -/
def bladderHeights_um : List ℕ :=
  ((List.range num_bladders).map (fun i => (i + 1) * bladder_spacing_um)).takeWhile
    (fun z => decide (z < tentacle_len_um - bladder_spacing_um))

/-- The bladder objects created by create_bladders, one stack per lobe. -/
def bladderObjs : List Obj :=
  (List.range 3).flatMap (fun lobe =>
    (List.range bladderHeights_um.length).map (Obj.bladder lobe))

/-- The 3 channel objects of create_channels (lines 300-400). -/
def channelObjs : List Obj := (List.range 3).map Obj.channel

/-- join_bladders_and_channels (lines 402-451): per lobe, the channel becomes
the hydraulic-system object and each of that lobe's bladders is joined to it
with a boolean UNION modifier. -/
def joinBladderChannelOps : List Op :=
  (List.range 3).flatMap (fun lobe =>
    (List.range bladderHeights_um.length).map (fun i =>
      Op.boolUnion (Obj.hydraulics lobe) (Obj.bladder lobe i)))

/-- Trace of main() (lines 637-698) on a successful run: geometry creation,
the bladder-channel unions, one render, one .blend save, the STL export of the
body, then the join of the three hydraulic systems into the first one and its
STL export.  No boolean DIFFERENCE is ever applied and no connector geometry
is ever created. -/
def cliMainTrace : List Op :=
  [Op.clearScene, Op.create Obj.body]
  ++ bladderObjs.map Op.create
  ++ channelObjs.map Op.create
  ++ joinBladderChannelOps
  ++ [Op.renderImage, Op.saveBlend, Op.exportStl Obj.body]
  ++ [Op.joinInto (Obj.hydraulics 0), Op.exportStl (Obj.hydraulics 0)]

/-- The void volumes claim C1 says are subtracted from the body: this script
creates bladders and channels (and no connectors). -/
def cliVoids : List Obj := bladderObjs ++ channelObjs

/-- Exception flow of export_stl (lines 577-611): method 1
(bpy.ops.export_mesh.stl) in a try whose handler catches only AttributeError;
inside it, method 2 (bpy.ops.wm.stl_export), again catching only
AttributeError; inside that, the .blend save whose bare except catches
everything.  Any non-AttributeError raised by method 1 or method 2 propagates
to the caller.  Arguments say which exception each method raises (none = the
method succeeds). -/
def export_stl (stdStl newStl blendSave : Option PyExc) : PyResult StlOutcome :=
  match stdStl with
  | none => .ok .exported
  | some e =>
    if e = .attributeError then
      match newStl with
      | none => .ok .exportedAlt
      | some e2 =>
        if e2 = .attributeError then
          match blendSave with
          | none => .ok .savedBlend
          | some _ => .ok .printedFailure
        else .raised e2
    else .raised e

/-- The global_scale keyword passed to bpy.ops.export_mesh.stl in export
method 1 (line 591), converting meters back to millimeters. -/
def stl_global_scale : ℚ := 1000

end RenderCli

/-! Claim predicates over traces. -/

/-- True for a boolean DIFFERENCE modifier applied to the tentacle body. -/
def isBodySubtract : Op → Bool
  | Op.boolDifference Obj.body _ => true
  | _ => false

/-- The prefix of a trace before the body's STL export. -/
def beforeBodyExport (t : List Op) : List Op :=
  t.takeWhile (fun op => op != Op.exportStl Obj.body)

/-- Claim C1's property of a trace: every void volume is subtracted from the
body by a boolean DIFFERENCE before the body is exported. -/
def subtractsVoidsBeforeBodyExport (t : List Op) (voids : List Obj) : Bool :=
  voids.all (fun v => (beforeBodyExport t).contains (Op.boolDifference Obj.body v))

/-- Radius/depth pairs (micrometers) of the connector-hole cylinders created
in a trace. -/
def connectorCylinderParams (t : List Op) : List (ℕ × ℕ) :=
  t.filterMap (fun op =>
    match op with
    | Op.createCylinder (Obj.connector _) r d => some (r, d)
    | _ => none)

/-- Claim C2's property of a trace: exactly three connector cylinders are
created, each with radius 6.35 mm (6350 um) and depth 20 mm (20000 um). -/
def claimC2holds (t : List Op) : Bool :=
  (connectorCylinderParams t).length = 3
  && (connectorCylinderParams t).all (fun p => p.1 == 6350 && p.2 == 20000)

/-- Claim C3's property of a trace: it renders an image, saves a .blend scene
file, and exports at least one STL mesh. -/
def claimC3holds (t : List Op) : Bool :=
  t.contains Op.renderImage && t.contains Op.saveBlend
  && t.any (fun op => match op with | Op.exportStl _ => true | _ => false)

/-- Claim C1 counterexample: neither script's main() subtracts the void
volumes from the body before exporting it.  Under the committed configuration
skip_boolean_ops = True, tri_lobe_tentacle_generator.py hides the voids
instead, and render_tentacle_cli.py applies no boolean DIFFERENCE at all. -/
theorem c1_counterexample :
    subtractsVoidsBeforeBodyExport TriLobeGen.genTrace TriLobeGen.void_objects = false
    ∧ subtractsVoidsBeforeBodyExport RenderCli.cliMainTrace RenderCli.cliVoids = false := by
  decide

/-- Claim C1 amended: the generator script's subtract_voids path would apply a
boolean DIFFERENCE to the body for every void before the export, but it is
only taken when skip_boolean_ops is False; as committed (skip_boolean_ops =
True) every void is hidden instead and no DIFFERENCE occurs.  The CLI script
unions each lobe's bladders into its channel and exports the body with no
DIFFERENCE ever applied. -/
theorem c1_amended :
    TriLobeGen.skip_boolean_ops = true
    ∧ TriLobeGen.void_objects.all
        (fun v => TriLobeGen.genTrace.contains (Op.hide v)) = true
    ∧ TriLobeGen.genTrace.all (fun op => !(isBodySubtract op)) = true
    ∧ subtractsVoidsBeforeBodyExport
        (TriLobeGen.genMainTrace false TriLobeGen.export_main TriLobeGen.export_cores)
        TriLobeGen.void_objects = true
    ∧ RenderCli.joinBladderChannelOps.all
        (fun op => RenderCli.cliMainTrace.contains op) = true
    ∧ RenderCli.cliMainTrace.all (fun op => !(isBodySubtract op)) = true
    ∧ RenderCli.cliMainTrace.contains (Op.exportStl Obj.body) = true := by
  decide

/-- Claim C2 counterexample: render_tentacle_cli.py creates no connector
cylinders at all, so it does not generate the three 6.35 mm x 20 mm connector
holes the claim asserts of both scripts. -/
theorem c2_counterexample : claimC2holds RenderCli.cliMainTrace = false := by
  decide

/-- Claim C2 amended: tri_lobe_tentacle_generator.py creates exactly three
connector cylinders of radius 6.35 mm and depth 20 mm (one per lobe);
render_tentacle_cli.py merely defines the connector parameters (6.35 and 20.0)
and creates no connector geometry. -/
theorem c2_amended :
    claimC2holds TriLobeGen.genTrace = true
    ∧ connectorCylinderParams RenderCli.cliMainTrace = []
    ∧ (TriLobeGen.connector_radius_um : ℚ)
        = TriLobeGen.connector_radius_mm * TriLobeGen.MM * 1000000
    ∧ (TriLobeGen.connector_length_um : ℚ)
        = TriLobeGen.connector_length_mm * TriLobeGen.MM * 1000000
    ∧ RenderCli.connector_radius_mm = 6.35
    ∧ RenderCli.connector_length_mm = 20 := by
  refine ⟨by decide, by decide, ?_, ?_, ?_, ?_⟩
  · norm_num [TriLobeGen.connector_radius_um, TriLobeGen.connector_radius_mm, TriLobeGen.MM]
  · norm_num [TriLobeGen.connector_length_um, TriLobeGen.connector_length_mm, TriLobeGen.MM]
  · norm_num [RenderCli.connector_radius_mm]
  · norm_num [RenderCli.connector_length_mm]

/-- Claim C3 counterexample: on a successful run
tri_lobe_tentacle_generator.py's main() saves no .blend scene file (the only
save_as_mainfile call sits in export_stl's failure fallback), so it does not
produce all three output kinds. -/
theorem c3_counterexample : claimC3holds TriLobeGen.genTrace = false := by
  decide

/-- Claim C3 amended: render_tentacle_cli.py exports all three output kinds on
a successful run; tri_lobe_tentacle_generator.py renders the image and exports
the body and cores STLs but never saves a .blend file on the successful path. -/
theorem c3_amended :
    claimC3holds RenderCli.cliMainTrace = true
    ∧ TriLobeGen.genTrace.contains Op.renderImage = true
    ∧ TriLobeGen.genTrace.contains (Op.exportStl Obj.body) = true
    ∧ TriLobeGen.genTrace.contains (Op.exportStl Obj.cores) = true
    ∧ TriLobeGen.genTrace.contains Op.saveBlend = false := by
  decide

/-- Claim C4 counterexample: when the first export method of
render_tentacle_cli.py's export_stl fails with an OSError (a write failure),
the handler - which catches only AttributeError - does not run, and the
exception propagates to the caller instead of falling through. -/
theorem c4_counterexample :
    RenderCli.export_stl (some PyExc.oSError) none none
      = PyResult.raised PyExc.oSError := by
  decide

/-- Claim C4 amended: tri_lobe_tentacle_generator.py's export_stl returns
normally for every combination of Exception-class failures of its write and
fallback-save steps; render_tentacle_cli.py's export_stl falls through only on
AttributeError: a non-AttributeError (for example a write failure) raised by
export method 1 or method 2 propagates to the caller, while the
all-AttributeError ladder and the success paths return normally. -/
theorem c4_amended :
    (∀ w b : Option PyExc, returnsNormally (TriLobeGen.export_stl w b) = true)
    ∧ (∀ m2 m3 : Option PyExc,
        RenderCli.export_stl (some PyExc.oSError) m2 m3 = PyResult.raised PyExc.oSError)
    ∧ (∀ m3 : Option PyExc,
        RenderCli.export_stl (some PyExc.attributeError) (some PyExc.oSError) m3
          = PyResult.raised PyExc.oSError)
    ∧ (∀ m3 : Option PyExc,
        returnsNormally
          (RenderCli.export_stl (some PyExc.attributeError) (some PyExc.attributeError) m3)
          = true)
    ∧ (∀ m2 m3 : Option PyExc,
        returnsNormally (RenderCli.export_stl none m2 m3) = true) := by
  decide

/-- Claim C8: both scripts create exactly 8 bladders per lobe, 24 in total.
tri_lobe_tentacle_generator.py fixes num_bladders = 8;
render_tentacle_cli.py computes num_bladders = int(150/15) - 1 = 9 candidate
indices and breaks at the first height reaching 135 mm, leaving the 8 heights
15 mm through 120 mm (here in micrometers). -/
theorem c8_bladder_counts :
    TriLobeGen.num_bladders = 8
    ∧ TriLobeGen.bladderObjs.length = 24
    ∧ RenderCli.num_bladders = 9
    ∧ RenderCli.bladderHeights_um.length = 8
    ∧ RenderCli.bladderHeights_um
        = [15000, 30000, 45000, 60000, 75000, 90000, 105000, 120000]
    ∧ RenderCli.bladderObjs.length = 24 := by
  decide

/-! Geometry layer. -/

/-- A mesh vertex or vector, with Blender's float coordinates modeled as
exact reals. -/
structure Vec3 where
  x : ℝ
  y : ℝ
  z : ℝ

/-- Two-argument arctangent, the semantics of Python's math.atan2(y, x):
the argument of the complex number x + i y, in (-pi, pi]. -/
noncomputable def atan2 (y x : ℝ) : ℝ := Complex.arg ⟨x, y⟩

/-- Cross product, the semantics of mathutils Vector.cross. -/
def Vec3.cross (a b : Vec3) : Vec3 :=
  ⟨a.y * b.z - a.z * b.y, a.z * b.x - a.x * b.z, a.x * b.y - a.y * b.x⟩

/-- Dot product, the semantics of mathutils Vector.dot. -/
noncomputable def Vec3.dot (a b : Vec3) : ℝ := a.x * b.x + a.y * b.y + a.z * b.z

/-- Euclidean norm, the semantics of mathutils Vector.length. -/
noncomputable def Vec3.length (v : Vec3) : ℝ := Real.sqrt (v.x ^ 2 + v.y ^ 2 + v.z ^ 2)

/-- Scalar multiple. -/
noncomputable def Vec3.smul (c : ℝ) (v : Vec3) : Vec3 := ⟨c * v.x, c * v.y, c * v.z⟩

/-- The semantics of mathutils Vector.normalized(): the unit vector in the
same direction, and the zero vector for the zero vector (mathutils raises no
error there). -/
noncomputable def Vec3.normalized (v : Vec3) : Vec3 :=
  if v.length = 0 then ⟨0, 0, 0⟩ else Vec3.smul (1 / v.length) v

namespace RenderCli

/-- Channel start point (x, y) at z = 0 for a lobe, from create_channels lines
310-318 and 329-330: angle = lobe * 2*pi/3 + pi/6, offset_ratio_start = 0.5,
offset_distance_start = base_radius_mm * 0.5 * MM, lobe_effect_start =
sin(angle*3) * 0.35, actual_offset_start = offset_distance_start *
(1 + lobe_effect_start). -/
noncomputable def channelStart (lobe : ℕ) : ℝ × ℝ :=
  let angle : ℝ := (lobe : ℝ) * 2 * Real.pi / 3 + Real.pi / 6
  let offset_ratio_start : ℝ := 0.5
  let offset_distance_start : ℝ := (base_radius_mm : ℝ) * offset_ratio_start * (MM : ℝ)
  let lobe_effect_start : ℝ := Real.sin (angle * 3) * 0.35
  let actual_offset_start : ℝ := offset_distance_start * (1 + lobe_effect_start)
  (actual_offset_start * Real.cos angle, actual_offset_start * Real.sin angle)

/-- Channel end point (x, y) at z_end = tentacle_len_mm * MM * 0.85 for a
lobe, from create_channels lines 321-335: offset_ratio_end = 0.5 - 0.3 *
z_ratio_end with z_ratio_end = 0.85, lobe_effect_end = sin(angle*3) * 0.35 *
(1 - 0.85^3), and the end point pulled inward by inward_factor = 0.4. -/
noncomputable def channelEnd (lobe : ℕ) : ℝ × ℝ :=
  let angle : ℝ := (lobe : ℝ) * 2 * Real.pi / 3 + Real.pi / 6
  let z_ratio_end : ℝ := 0.85
  let offset_ratio_end : ℝ := 0.5 - 0.3 * z_ratio_end
  let offset_distance_end : ℝ := (base_radius_mm : ℝ) * offset_ratio_end * (MM : ℝ)
  let lobe_effect_end : ℝ := Real.sin (angle * 3) * 0.35 * (1 - z_ratio_end ^ 3)
  let actual_offset_end : ℝ := offset_distance_end * (1 + lobe_effect_end)
  let inward_factor : ℝ := 0.4
  (actual_offset_end * Real.cos angle * inward_factor,
   actual_offset_end * Real.sin angle * inward_factor)

/-- Center (x, y) of the bladder at stack index i of a lobe, from
create_bladders lines 213-249: the start and end positions are computed by
the same formulas as in create_channels, z_pos = (i+1) * bladder_spacing_mm *
MM, path_ratio = z_pos / z_end, and the center is the linear interpolation
start + (end - start) * path_ratio. -/
noncomputable def bladderCenter (lobe i : ℕ) : ℝ × ℝ :=
  let angle : ℝ := (lobe : ℝ) * 2 * Real.pi / 3 + Real.pi / 6
  let offset_ratio_start : ℝ := 0.5
  let offset_distance_start : ℝ := (base_radius_mm : ℝ) * offset_ratio_start * (MM : ℝ)
  let lobe_effect_start : ℝ := Real.sin (angle * 3) * 0.35
  let actual_offset_start : ℝ := offset_distance_start * (1 + lobe_effect_start)
  let start_x : ℝ := actual_offset_start * Real.cos angle
  let start_y : ℝ := actual_offset_start * Real.sin angle
  let z_end : ℝ := (tentacle_len_mm : ℝ) * (MM : ℝ) * 0.85
  let z_ratio_end : ℝ := 0.85
  let offset_ratio_end : ℝ := 0.5 - 0.3 * z_ratio_end
  let offset_distance_end : ℝ := (base_radius_mm : ℝ) * offset_ratio_end * (MM : ℝ)
  let lobe_effect_end : ℝ := Real.sin (angle * 3) * 0.35 * (1 - z_ratio_end ^ 3)
  let actual_offset_end : ℝ := offset_distance_end * (1 + lobe_effect_end)
  let inward_factor : ℝ := 0.4
  let end_x : ℝ := actual_offset_end * Real.cos angle * inward_factor
  let end_y : ℝ := actual_offset_end * Real.sin angle * inward_factor
  let z_pos : ℝ := ((i : ℝ) + 1) * (bladder_spacing_mm : ℝ) * (MM : ℝ)
  let path_ratio : ℝ := z_pos / z_end
  (start_x + (end_x - start_x) * path_ratio, start_y + (end_y - start_y) * path_ratio)

/-- Sphere radius of the bladder at stack index i, from create_bladders lines
250-268: z_ratio = z_pos / (tentacle_len_mm * MM), tentacle_radius_at_z =
base_radius_mm * MM * (1.0 - z_ratio), size_ratio = 0.35 - z_ratio * 0.15,
then the product clamped by min with bladder_short_mm * MM * 1.2 and max with
0.0005. -/
def bladderRadius (i : ℕ) : ℚ :=
  let z_pos : ℚ := ((i : ℚ) + 1) * bladder_spacing_mm * MM
  let z_ratio : ℚ := z_pos / (tentacle_len_mm * MM)
  let tentacle_radius_at_z : ℚ := base_radius_mm * MM * (1 - z_ratio)
  let size_ratio : ℚ := 0.35 - z_ratio * 0.15
  let r : ℚ := tentacle_radius_at_z * size_ratio
  let min_bladder_radius : ℚ := 0.0005
  let max_bladder_radius : ℚ := bladder_short_mm * MM * 1.2
  max (min r max_bladder_radius) min_bladder_radius

/-- The bladder radius as claim C6 words it: the local tentacle radius times
the proportional ratio 0.35 - 0.15 * z_ratio, clamped into the closed
interval from 0.0005 to 0.0072 meters. -/
def claimC6Radius (i : ℕ) : ℚ :=
  let z_ratio : ℚ := (((i : ℚ) + 1) * bladder_spacing_mm * MM) / (tentacle_len_mm * MM)
  max 0.0005 (min 0.0072 (base_radius_mm * MM * (1 - z_ratio) * (0.35 - 0.15 * z_ratio)))

/-- Tri-lobe deformation of one cone vertex, from create_simple_tentacle
lines 169-185: z_ratio = (z + tentacle_len_mm/2 * MM) / (tentacle_len_mm *
MM), angle = atan2(y, x), lobe_effect = sin(angle*3) * 0.35 * (1 -
z_ratio^3), and when sqrt(x^2 + y^2) > 0 both x and y are scaled by 1 +
lobe_effect. -/
noncomputable def deformVertex (v : Vec3) : Vec3 :=
  let z_ratio : ℝ := (v.z + (tentacle_len_mm : ℝ) / 2 * (MM : ℝ)) / ((tentacle_len_mm : ℝ) * (MM : ℝ))
  let angle : ℝ := atan2 v.y v.x
  let lobe_effect : ℝ := Real.sin (angle * 3) * 0.35 * (1 - z_ratio ^ 3)
  let radius : ℝ := Real.sqrt (v.x ^ 2 + v.y ^ 2)
  if radius > 0 then
    let scale_factor : ℝ := 1 + lobe_effect
    ⟨v.x * scale_factor, v.y * scale_factor, v.z⟩
  else v

/-- The multiplicative factor as claim C7 words it:
1 + 0.35 * sin(3 * atan2(y, x)) * (1 - z_ratio^3) with
z_ratio = (z + L/2) / L and L the tentacle length in meters. -/
noncomputable def claimC7Factor (v : Vec3) : ℝ :=
  1 + 0.35 * Real.sin (3 * atan2 v.y v.x)
    * (1 - ((v.z + ((tentacle_len_mm : ℝ) * (MM : ℝ)) / 2) / ((tentacle_len_mm : ℝ) * (MM : ℝ))) ^ 3)

/-- Arccosine restricted to its real domain: some only when the argument lies
in [-1, 1], modeling that Python's math.acos raises a ValueError outside. -/
noncomputable def safe_acos (t : ℝ) : Option ℝ :=
  if -1 ≤ t ∧ t ≤ 1 then some (Real.arccos t) else none

/-- Normalization that refuses the zero vector: none models the degenerate
zero-division case claim C10 says cannot be reached. -/
noncomputable def safe_normalize (v : Vec3) : Option Vec3 :=
  if v.length = 0 then none else some (Vec3.smul (1 / v.length) v)

/-- Outcome of the channel-alignment step: either the rotation step was
skipped (cross product of zero length) or an axis-angle rotation was set. -/
inductive ChannelRot
  | skipped
  | applied (angle : ℝ) (axis : Vec3)

/-- The rotation computation of create_channels lines 369-383: direction is
the normalized vector from the channel start to its end, rotation_axis is
(0,0,1) cross direction; when its length is positive the axis is normalized
and the angle is acos of the clamped dot product, otherwise the rotation step
is skipped.  The two places where a host error could occur (normalizing a
zero vector, acos outside [-1,1]) are modeled with Option: a none result
would mean an error is reachable. -/
noncomputable def channelAlignRot (startP endP : Vec3) : Option ChannelRot :=
  let up : Vec3 := ⟨0, 0, 1⟩
  let direction : Vec3 :=
    Vec3.normalized ⟨endP.x - startP.x, endP.y - startP.y, endP.z - startP.z⟩
  let rotation_axis : Vec3 := Vec3.cross up direction
  if rotation_axis.length > 0 then
    match safe_normalize rotation_axis with
    | some axis =>
      match safe_acos (min 1 (max (-1) (Vec3.dot up direction))) with
      | some angle => some (.applied angle axis)
      | none => none
    | none => none
  else some .skipped

end RenderCli

namespace TriLobeGen

/-- A mesh face as bmesh hands it to the STL writer: its normal and its
vertex coordinates in stored order. -/
structure Face where
  normal : Vec3
  verts : List Vec3

/-- One line of the hand-written STL text: the solid header, a facet-normal
line carrying the three normal components, the loop delimiters, a vertex line
carrying three raw coordinates, the facet end, and the endsolid footer. -/
inductive StlLine
  | solidHeader
  | facetNormal (n : Vec3)
  | outerLoop
  | vertexLine (v : Vec3)
  | endLoop
  | endFacet
  | endSolidFooter

/-- The hand-written STL exporter of export_stl, lines 600-612: writes
"solid tentacle", then for each bmesh face a facet block - the facet normal,
"outer loop", one vertex line per face vertex with the stored coordinates
co.x co.y co.z, "endloop", "endfacet" - and finally "endsolid tentacle". -/
def export_stl_text (faces : List Face) : List StlLine :=
  [StlLine.solidHeader]
  ++ faces.flatMap (fun face =>
      [StlLine.facetNormal face.normal, StlLine.outerLoop]
      ++ face.verts.map (fun vert => StlLine.vertexLine vert)
      ++ [StlLine.endLoop, StlLine.endFacet])
  ++ [StlLine.endSolidFooter]

/-- One facet block as claim C9 words it: the face normal, then one loop
containing the raw stored coordinates of all of that face's vertices - with
no unit scaling and one loop per face regardless of the vertex count. -/
def claimC9FacetBlock (face : Face) : List StlLine :=
  [StlLine.facetNormal face.normal, StlLine.outerLoop]
  ++ face.verts.map StlLine.vertexLine
  ++ [StlLine.endLoop, StlLine.endFacet]

/-- True for an "outer loop" line. -/
def isOuterLoop : StlLine → Bool
  | StlLine.outerLoop => true
  | _ => false

/-- The coordinates a vertex line carries, none for other lines. -/
def vertexOf : StlLine → Option Vec3
  | StlLine.vertexLine v => some v
  | _ => none

end TriLobeGen

/-! Geometry claims. -/

/-- Claim C5: in render_tentacle_cli.py, the center (x, y) of every bladder
created at height z_pos is the linear interpolation start + (end - start) *
(z_pos / z_end) between the lobe's channel start point at z = 0 and its
channel end point at z_end = 0.85 * tentacle length, with start and end
computed by the same formulas create_channels uses (30-degree angular offset,
sin(3*angle)*0.35 lobe term, 0.4 inward factor at the end). -/
theorem c5_bladders_follow_channel_path (lobe i : ℕ) :
    RenderCli.bladderCenter lobe i =
      (let s := RenderCli.channelStart lobe
       let e := RenderCli.channelEnd lobe
       let r := (((i : ℝ) + 1) * (RenderCli.bladder_spacing_mm : ℝ) * (RenderCli.MM : ℝ))
         / (0.85 * ((RenderCli.tentacle_len_mm : ℝ) * (RenderCli.MM : ℝ)))
       (s.1 + (e.1 - s.1) * r, s.2 + (e.2 - s.2) * r)) := by
  simp only [RenderCli.bladderCenter, RenderCli.channelStart, RenderCli.channelEnd]
  rw [Prod.mk.injEq]
  constructor <;> ring_nf

/-- Claim C6: in render_tentacle_cli.py create_bladders, every bladder's
sphere radius equals the local tentacle radius base_radius_mm * MM *
(1 - z_ratio) times the proportional ratio 0.35 - 0.15 * z_ratio, clamped
into the closed interval [0.0005, 1.2 * bladder_short_mm * MM] =
[0.0005, 0.0072] meters, and the result always lies in that interval. -/
theorem c6_bladder_radius_clamped (i : ℕ) :
    RenderCli.bladderRadius i = RenderCli.claimC6Radius i
    ∧ (0.0005 : ℚ) ≤ RenderCli.bladderRadius i
    ∧ RenderCli.bladderRadius i ≤ 0.0072 := by
  refine ⟨?_, ?_, ?_⟩
  · simp only [RenderCli.bladderRadius, RenderCli.claimC6Radius]
    rw [max_comm, min_comm]
    norm_num [RenderCli.bladder_short_mm, RenderCli.MM]
    ring_nf
  · simp only [RenderCli.bladderRadius]
    exact le_max_right _ _
  · simp only [RenderCli.bladderRadius]
    apply max_le
    · refine le_trans (min_le_right _ _) ?_
      norm_num [RenderCli.bladder_short_mm, RenderCli.MM]
    · norm_num

/-- Claim C7: in render_tentacle_cli.py create_simple_tentacle, the tri-lobe
deformation multiplies a vertex's x and y by 1 + 0.35 * sin(3 * atan2(y, x))
* (1 - z_ratio^3) with z_ratio = (z + L/2) / L (L the tentacle length in
meters) exactly when sqrt(x^2 + y^2) > 0, leaves vertices of radius 0
unchanged, and never modifies z. -/
theorem c7_trilobe_deformation (v : Vec3) :
    RenderCli.deformVertex v =
      (if Real.sqrt (v.x ^ 2 + v.y ^ 2) > 0 then
        ⟨v.x * RenderCli.claimC7Factor v, v.y * RenderCli.claimC7Factor v, v.z⟩
      else v)
    ∧ (RenderCli.deformVertex v).z = v.z := by
  have h : RenderCli.deformVertex v =
      (if Real.sqrt (v.x ^ 2 + v.y ^ 2) > 0 then
        ⟨v.x * RenderCli.claimC7Factor v, v.y * RenderCli.claimC7Factor v, v.z⟩
      else v) := by
    simp only [RenderCli.deformVertex, RenderCli.claimC7Factor]
    split_ifs with hr
    · rw [Vec3.mk.injEq]
      refine ⟨by ring_nf, by ring_nf, rfl⟩
    · rfl
  refine ⟨h, ?_⟩
  rw [h]
  split_ifs <;> rfl

/-- Vertex lines contribute no "outer loop" line. -/
theorem stl_countP_vertexLines (l : List Vec3) :
    ((l.map TriLobeGen.StlLine.vertexLine).countP TriLobeGen.isOuterLoop) = 0 := by
  induction l with
  | nil => rfl
  | cons v vs ih => simp_all [List.countP_cons, TriLobeGen.isOuterLoop]

/-- The vertex lines written for a vertex list carry back exactly that list. -/
theorem stl_filterMap_vertexLines (l : List Vec3) :
    (l.map TriLobeGen.StlLine.vertexLine).filterMap TriLobeGen.vertexOf = l := by
  induction l with
  | nil => rfl
  | cons v vs ih => simp_all [TriLobeGen.vertexOf]

/-- Each facet block contains exactly one "outer loop" line. -/
theorem stl_countP_block (f : TriLobeGen.Face) :
    (TriLobeGen.claimC9FacetBlock f).countP TriLobeGen.isOuterLoop = 1 := by
  simp [TriLobeGen.claimC9FacetBlock, List.countP_append, List.countP_cons,
    TriLobeGen.isOuterLoop, stl_countP_vertexLines]

/-- Each facet block's vertex lines carry the face's stored vertices. -/
theorem stl_filterMap_block (f : TriLobeGen.Face) :
    (TriLobeGen.claimC9FacetBlock f).filterMap TriLobeGen.vertexOf = f.verts := by
  simp only [TriLobeGen.claimC9FacetBlock, List.filterMap_append, List.filterMap_cons,
    List.filterMap_nil, TriLobeGen.vertexOf, stl_filterMap_vertexLines]
  simp

/-- The concatenated facet blocks contain one "outer loop" line per face. -/
theorem stl_countP_flat (faces : List TriLobeGen.Face) :
    (faces.flatMap TriLobeGen.claimC9FacetBlock).countP TriLobeGen.isOuterLoop
      = faces.length := by
  induction faces with
  | nil => rfl
  | cons f fs ih =>
    simp [List.countP_append, stl_countP_block, ih]
    omega

/-- The concatenated facet blocks' vertex lines carry all faces' vertices. -/
theorem stl_filterMap_flat (faces : List TriLobeGen.Face) :
    (faces.flatMap TriLobeGen.claimC9FacetBlock).filterMap TriLobeGen.vertexOf
      = faces.flatMap (fun f => f.verts) := by
  induction faces with
  | nil => rfl
  | cons f fs ih => simp [List.filterMap_append, stl_filterMap_block, ih]

/-- Claim C9: the hand-written STL exporter of tri_lobe_tentacle_generator.py
writes the solid header, then one facet block per face in order - the face
normal and the raw stored coordinates of all of that face's vertices in a
single loop, with no unit scaling and regardless of the face's vertex count -
then the endsolid footer; it writes one "outer loop" per face and emits
exactly the stored vertex coordinates in order, unlike
render_tentacle_cli.py's exporter whose method 1 passes global_scale = 1000
to convert meters to millimeters. -/
theorem c9_stl_writer_output (faces : List TriLobeGen.Face) :
    TriLobeGen.export_stl_text faces
      = [TriLobeGen.StlLine.solidHeader] ++ faces.flatMap TriLobeGen.claimC9FacetBlock
        ++ [TriLobeGen.StlLine.endSolidFooter]
    ∧ (TriLobeGen.export_stl_text faces).countP TriLobeGen.isOuterLoop = faces.length
    ∧ (TriLobeGen.export_stl_text faces).filterMap TriLobeGen.vertexOf
        = faces.flatMap (fun f => f.verts)
    ∧ RenderCli.stl_global_scale = 1000 := by
  refine ⟨rfl, ?_, ?_, rfl⟩
  · show (TriLobeGen.StlLine.solidHeader ::
      (faces.flatMap TriLobeGen.claimC9FacetBlock ++ [TriLobeGen.StlLine.endSolidFooter])).countP
        TriLobeGen.isOuterLoop = faces.length
    simp [List.countP_cons, List.countP_append, TriLobeGen.isOuterLoop, stl_countP_flat]
  · show (TriLobeGen.StlLine.solidHeader ::
      (faces.flatMap TriLobeGen.claimC9FacetBlock ++ [TriLobeGen.StlLine.endSolidFooter])).filterMap
        TriLobeGen.vertexOf = faces.flatMap (fun f => f.verts)
    simp [List.filterMap_append, stl_filterMap_flat, TriLobeGen.vertexOf]

/-- Claim C10: the channel-alignment computation of render_tentacle_cli.py
create_channels is total for every start/end pair: the acos argument is
clamped into [-1, 1] before the call, the computation never hits a zero-vector
normalization or an acos domain error (isSome), and when the cross product
with (0,0,1) has zero length the rotation step is skipped entirely. -/
theorem c10_channel_rotation_total (s e : Vec3) :
    (-1 ≤ min 1 (max (-1) (Vec3.dot ⟨0, 0, 1⟩
        (Vec3.normalized ⟨e.x - s.x, e.y - s.y, e.z - s.z⟩)))
      ∧ min 1 (max (-1) (Vec3.dot ⟨0, 0, 1⟩
        (Vec3.normalized ⟨e.x - s.x, e.y - s.y, e.z - s.z⟩))) ≤ 1)
    ∧ (RenderCli.channelAlignRot s e).isSome = true
    ∧ ((Vec3.cross ⟨0, 0, 1⟩
          (Vec3.normalized ⟨e.x - s.x, e.y - s.y, e.z - s.z⟩)).length = 0 →
        RenderCli.channelAlignRot s e = some RenderCli.ChannelRot.skipped) := by
  have hlb : -1 ≤ min 1 (max (-1) (Vec3.dot ⟨0, 0, 1⟩
      (Vec3.normalized ⟨e.x - s.x, e.y - s.y, e.z - s.z⟩))) :=
    le_min (by norm_num) (le_max_left _ _)
  have hub : min 1 (max (-1) (Vec3.dot ⟨0, 0, 1⟩
      (Vec3.normalized ⟨e.x - s.x, e.y - s.y, e.z - s.z⟩))) ≤ 1 :=
    min_le_left _ _
  refine ⟨⟨hlb, hub⟩, ?_, ?_⟩
  · simp only [RenderCli.channelAlignRot]
    split_ifs with h
    · rw [RenderCli.safe_normalize, if_neg (ne_of_gt h)]
      rw [RenderCli.safe_acos, if_pos ⟨hlb, hub⟩]
      rfl
    · rfl
  · intro h0
    simp only [RenderCli.channelAlignRot]
    rw [if_neg]
    rw [h0]
    exact lt_irrefl 0

/-- Witness for claim C10 at a concrete vertical channel: from (0,0,0) to
(0,0,1) the direction is parallel to +z, the cross product vanishes, and the
rotation step is skipped. -/
theorem c10_witness :
    RenderCli.channelAlignRot ⟨0, 0, 0⟩ ⟨0, 0, 1⟩
      = some RenderCli.ChannelRot.skipped := by
  apply (c10_channel_rotation_total ⟨0, 0, 0⟩ ⟨0, 0, 1⟩).2.2
  norm_num [Vec3.cross, Vec3.normalized, Vec3.length, Vec3.smul,
    Real.sqrt_one, Real.sqrt_zero]
